import Mathlib

/-!
Verification of the `plants` Django repository against its specification.

Each Python module relevant to a claim is shallowly embedded: Django ORM
tables become lists of row records, mutation becomes explicit state passing,
Python exceptions become `Except`/`Option` results, and `Decimal`/`float`
values become `ℚ`.  Timestamps (`datetime.now()`) are passed in explicitly as
parameters.  Definitions are transliterated from the source files named in
the comments.
-/

namespace Plants

/-- Python exception values that can escape the embedded functions. -/
inductive PyErr where
  | valueError (msg : String)
  | attributeError (msg : String)
  | indexError (msg : String)
  deriving DecidableEq, Repr

/-! ## plants/apps/core/models.py

`BaseModel` rows: `created_at`, `updated_at`, `created_by`, `deleted_at`
plus the concrete model's own columns, modelled as a `payload` of an
arbitrary type.  Timestamps are `Nat`; `pk` is `Option Nat` (None before the
row is saved). -/

structure BaseRow (α : Type) where
  pk : Option Nat
  created_at : Nat
  updated_at : Nat
  created_by : Option Nat
  deleted_at : Option Nat
  payload : α
  deriving DecidableEq, Repr

/-- CustomQueryset.delete (core/models.py): `self.update(deleted_at=datetime.now())`.
A queryset over a table is modelled by the table plus the selection predicate
`sel` (decidable, as ORM filters are); `update` touches exactly the selected
rows and only the named column (Django's `QuerySet.update` does not fire
`auto_now`). -/
def CustomQueryset.delete {α : Type} (table : List (BaseRow α))
    (sel : BaseRow α → Bool) (now : Nat) : List (BaseRow α) :=
  table.map (fun r => if sel r then { r with deleted_at := some now } else r)

/-- CustomBaseManager.get_queryset (core/models.py): all of the model's rows
filtered by `deleted_at=None`. -/
def CustomBaseManager.get_queryset {α : Type} (table : List (BaseRow α)) :
    List (BaseRow α) :=
  table.filter (fun r => r.deleted_at = none)

/-- BaseModel.save (core/models.py) with `force=False` on an already
persisted row (`pk` set): the thread-local `created_by` branch is skipped and
`super().save()` runs, refreshing the `auto_now` column `updated_at`. -/
def BaseModel.save_persisted {α : Type} (r : BaseRow α) (now : Nat) : BaseRow α :=
  { r with updated_at := now }

/-- BaseModel.delete (core/models.py): raises ValueError when `pk` is None,
otherwise sets `deleted_at = datetime.now()` and calls `self.save()`;
the row is returned, never removed from its table. -/
def BaseModel.delete {α : Type} (r : BaseRow α) (now : Nat) :
    Except PyErr (BaseRow α) :=
  match r.pk with
  | none => .error (.valueError "object can't be deleted because its pk attribute is set to None.")
  | some _ => .ok (BaseModel.save_persisted { r with deleted_at := some now } now)

/-- C3: for every model using the default manager `CustomBaseManager`, the
default queryset contains exactly the rows whose `deleted_at` is `None`:
a row is in `get_queryset` of a table iff it is in the table and its
deletion timestamp is unset. -/
theorem c3_default_queryset_excludes_soft_deleted {α : Type} [DecidableEq α]
    (table : List (BaseRow α)) (r : BaseRow α) :
    r ∈ CustomBaseManager.get_queryset table ↔
      r ∈ table ∧ r.deleted_at = none := by
  simp [CustomBaseManager.get_queryset, List.mem_filter]

/-- C6: deleting a persisted `BaseModel` instance keeps the row and changes
only `deleted_at` (set to the current timestamp) and `updated_at`; bulk
queryset delete keeps every row of the table, updates only `deleted_at` on
the selected rows, and leaves unselected rows untouched. -/
theorem c6_soft_delete_frame {α : Type} (r : BaseRow α) (now : Nat)
    (table : List (BaseRow α)) (sel : BaseRow α → Bool) (k : Nat)
    (hpk : r.pk = some k) :
    (BaseModel.delete r now =
        .ok { r with deleted_at := some now, updated_at := now }) ∧
    (CustomQueryset.delete table sel now).length = table.length ∧
    (∀ i : Nat, ∀ hi : i < table.length,
      (CustomQueryset.delete table sel now).get ⟨i, by
          simpa [CustomQueryset.delete] using hi⟩ =
        (if sel (table.get ⟨i, hi⟩)
          then { table.get ⟨i, hi⟩ with deleted_at := some now }
          else table.get ⟨i, hi⟩)) := by
  refine ⟨?_, ?_, ?_⟩
  · simp [BaseModel.delete, hpk, BaseModel.save_persisted]
  · simp [CustomQueryset.delete]
  · intro i hi
    simp [CustomQueryset.delete]

/-- Closed instantiation of `c6_soft_delete_frame` at a concrete row and
table. -/
theorem c6_soft_delete_frame_witness :
    (BaseModel.delete (α := Nat)
        ⟨some 7, 1, 2, some 3, none, 42⟩ 10 =
      .ok ⟨some 7, 1, 10, some 3, some 10, 42⟩) ∧
    (CustomQueryset.delete (α := Nat)
        [⟨some 7, 1, 2, some 3, none, 42⟩] (fun _ => true) 10).length = 1 ∧
    (∀ i : Nat, ∀ hi : i < [(⟨some 7, 1, 2, some 3, none, 42⟩ : BaseRow Nat)].length,
      (CustomQueryset.delete (α := Nat)
          [⟨some 7, 1, 2, some 3, none, 42⟩] (fun _ => true) 10).get ⟨i, by
            simpa [CustomQueryset.delete] using hi⟩ =
        (if (fun (_ : BaseRow Nat) => true) ([(⟨some 7, 1, 2, some 3, none, 42⟩ : BaseRow Nat)].get ⟨i, hi⟩)
          then { [(⟨some 7, 1, 2, some 3, none, 42⟩ : BaseRow Nat)].get ⟨i, hi⟩ with deleted_at := some 10 }
          else [(⟨some 7, 1, 2, some 3, none, 42⟩ : BaseRow Nat)].get ⟨i, hi⟩)) := by
  exact c6_soft_delete_frame (α := Nat)
    ⟨some 7, 1, 2, some 3, none, 42⟩ 10
    [⟨some 7, 1, 2, some 3, none, 42⟩] (fun _ => true) 7 rfl

/-! ## plants/apps/task/models.py

`Task` extends `BaseModel`; its own columns ride in the payload.  The
`Meta.constraints` declaration installs the partial unique constraint
`UniqueConstraint(fields=['task_title','field'], condition=Q(deleted_at=None))`
named "one named task for a field,unless deleted". -/

structure TaskCols where
  frequency : String
  task_title : String
  descriptions : Option String
  field : Nat
  status : String
  generated : Bool
  aprouved : Bool
  deriving DecidableEq, Repr

/-- Database error raised when a constraint rejects an insert. -/
inductive DbErr where
  | integrityError (constraint : String)
  deriving DecidableEq, Repr

/-- The invariant declared by Task.Meta: among rows whose `deleted_at` is
unset, the pair `(task_title, field)` is unique. -/
def Task.liveTitleFieldUnique (table : List (BaseRow TaskCols)) : Prop :=
  table.Pairwise (fun a b =>
    ¬(a.payload.task_title = b.payload.task_title ∧ a.payload.field = b.payload.field ∧
      a.deleted_at = none ∧ b.deleted_at = none))

/-- Creating a Task row under the declared constraint, with the standard SQL
semantics of a partial unique index: the insert is rejected exactly when the
new row falls under the condition (`deleted_at IS NULL`) and an existing row
under the condition has the same `(task_title, field)`. -/
def Task.create (table : List (BaseRow TaskCols)) (r : BaseRow TaskCols) :
    Except DbErr (List (BaseRow TaskCols)) :=
  if r.deleted_at = none ∧ table.any (fun x =>
      x.deleted_at = none && x.payload.task_title = r.payload.task_title &&
      x.payload.field = r.payload.field) then
    .error (.integrityError "one named task for a field,unless deleted")
  else
    .ok (r :: table)

/-- C4: with the partial unique constraint of Task.Meta, a live duplicate of
the title of a live task on the same field is rejected; if every prior task
with that title on that field is soft-deleted, the creation succeeds and the
table keeps the invariant that at most one row per `(task_title, field)` pair
is live. -/
theorem c4_duplicate_task_title (table : List (BaseRow TaskCols))
    (r : BaseRow TaskCols) (hinv : Task.liveTitleFieldUnique table)
    (hr : r.deleted_at = none) :
    ((∃ x ∈ table, x.payload.task_title = r.payload.task_title ∧
        x.payload.field = r.payload.field ∧ x.deleted_at = none) →
      Task.create table r =
        .error (.integrityError "one named task for a field,unless deleted")) ∧
    ((∀ x ∈ table, x.payload.task_title = r.payload.task_title →
        x.payload.field = r.payload.field → x.deleted_at ≠ none) →
      Task.create table r = .ok (r :: table) ∧
        Task.liveTitleFieldUnique (r :: table)) := by
  constructor
  · rintro ⟨x, hx, ht, hf, hd⟩
    have hany : table.any (fun x =>
        x.deleted_at = none && x.payload.task_title = r.payload.task_title &&
        x.payload.field = r.payload.field) = true := by
      refine List.any_eq_true.mpr ⟨x, hx, ?_⟩
      simp [ht, hf, hd]
    simp [Task.create, hr, hany]
  · intro hno
    have hany : table.any (fun x =>
        x.deleted_at = none && x.payload.task_title = r.payload.task_title &&
        x.payload.field = r.payload.field) = false := by
      rw [List.any_eq_false]
      intro x hx
      simp only [Bool.and_eq_true, decide_eq_true_eq, not_and]
      rintro ⟨hd, ht⟩ hf
      exact hno x hx ht hf hd
    refine ⟨by simp [Task.create, hany], ?_⟩
    refine List.Pairwise.cons ?_ hinv
    rintro x hx ⟨ht, hf, _, hxd⟩
    exact hno x hx ht.symm hf.symm hxd

/-- Closed instantiation of `c4_duplicate_task_title`: one soft-deleted prior
row with the same title and field, so the fresh live row is accepted. -/
theorem c4_duplicate_task_title_witness :
    ((∃ x ∈ [(⟨some 1, 0, 0, none, some 5, ⟨"D", "water", none, 9, "P", false, false⟩⟩ : BaseRow TaskCols)],
        x.payload.task_title = "water" ∧ x.payload.field = 9 ∧ x.deleted_at = none) →
      Task.create [⟨some 1, 0, 0, none, some 5, ⟨"D", "water", none, 9, "P", false, false⟩⟩]
          ⟨some 2, 6, 6, none, none, ⟨"D", "water", none, 9, "P", false, false⟩⟩ =
        .error (.integrityError "one named task for a field,unless deleted")) ∧
    ((∀ x ∈ [(⟨some 1, 0, 0, none, some 5, ⟨"D", "water", none, 9, "P", false, false⟩⟩ : BaseRow TaskCols)],
        x.payload.task_title = "water" → x.payload.field = 9 → x.deleted_at ≠ none) →
      Task.create [⟨some 1, 0, 0, none, some 5, ⟨"D", "water", none, 9, "P", false, false⟩⟩]
          ⟨some 2, 6, 6, none, none, ⟨"D", "water", none, 9, "P", false, false⟩⟩ =
        .ok [⟨some 2, 6, 6, none, none, ⟨"D", "water", none, 9, "P", false, false⟩⟩,
             ⟨some 1, 0, 0, none, some 5, ⟨"D", "water", none, 9, "P", false, false⟩⟩] ∧
        Task.liveTitleFieldUnique
          [⟨some 2, 6, 6, none, none, ⟨"D", "water", none, 9, "P", false, false⟩⟩,
           ⟨some 1, 0, 0, none, some 5, ⟨"D", "water", none, 9, "P", false, false⟩⟩]) := by
  exact c4_duplicate_task_title
    [⟨some 1, 0, 0, none, some 5, ⟨"D", "water", none, 9, "P", false, false⟩⟩]
    ⟨some 2, 6, 6, none, none, ⟨"D", "water", none, 9, "P", false, false⟩⟩
    (List.pairwise_singleton _ _) rfl

/-! ## plants/apps/market/views/product.py — FieldProductView.post

The serializer's writable fields (market/serializers/product.py) form the
validated data; `user_access_unit` is the Decimal credit balance on
`CustomUser` (user_app/models.py), modelled as `ℚ`.  The module
`plants/apps/market/utils/cost.py` is absent from the sources, so
`product_access_unit_cost` is kept as a function parameter: per the spec it
computes a cost from the product's measurement unit and quantity. -/

structure ProductData where
  product_name : String
  product_type : String
  product_country : String
  product_region : String
  product_quantity : ℚ
  product_measurement_unit : String
  product_price : ℚ
  deriving DecidableEq, Repr

structure MarketUser where
  id : Nat
  user_access_unit : ℚ
  deriving DecidableEq, Repr

/-- A value of the ad hoc JSON envelopes built by the market views. -/
inductive RVal where
  | vnull
  | vbool (b : Bool)
  | vnat (n : Nat)
  | vstr (s : String)
  | vdata (d : ProductData)
  deriving DecidableEq, Repr

/-- An HTTP response: DRF `Response(body, status=...)`; when no status is
passed the default is 200. -/
structure HResp where
  status : Nat
  body : List (String × RVal)
  deriving DecidableEq, Repr

/-- Everything FieldProductView.post leaves behind: the response, the
requesting user's row after the handler, and the product rows created
(as pairs of the field's pk and the validated data). -/
structure PostOut where
  resp : HResp
  user : MarketUser
  created : List (Nat × ProductData)
  deriving DecidableEq, Repr

/-- FieldProductView.post (market/views/product.py), on already validated
serializer data: look up the field through the default manager (which hides
soft-deleted rows), answer 404 when it is missing, compute the cost, answer
403 without saving anything when the balance is below the cost, otherwise
debit the user, save, and create the product on the field. -/
def FieldProductView.post (product_access_unit_cost : String → ℚ → ℚ)
    (fields : List (BaseRow Unit)) (field_pk : Nat) (user : MarketUser)
    (validated_data : ProductData) : PostOut :=
  match (CustomBaseManager.get_queryset fields).find? (fun f => f.pk = some field_pk) with
  | none =>
      { resp := ⟨404,
          [("success", .vbool false),
           ("respose_code", .vnat 404),
           ("respose_data", .vnull),
           ("response_message",
             .vstr ("field with id " ++ toString field_pk ++ " does not exist"))]⟩,
        user := user, created := [] }
  | some field =>
      let cost := product_access_unit_cost
        validated_data.product_measurement_unit validated_data.product_quantity
      if user.user_access_unit < cost then
        { resp := ⟨403,
            [("success", .vbool false),
             ("respose_code", .vnat 403),
             ("respose_data", .vnull),
             ("response_message", .vstr "insufficient AU, please charge your account")]⟩,
          user := user, created := [] }
      else
        { resp := ⟨200,
            [("success", .vbool true),
             ("response_code", .vnat 201),
             ("response_data", .vdata validated_data),
             ("response_messsage", .vstr "product created successfuly")]⟩,
          user := { user with user_access_unit := user.user_access_unit - cost },
          created := [(field_pk, validated_data)] }

/-- A sample validated product body used by the concrete market theorems. -/
def sampleProduct : ProductData :=
  ⟨"maize", "grain", "CD", "Kivu", 5, "Kg", 100⟩

/-- C1 counterexample: with an empty field table (so the target field does
not exist) and a balance strictly below the computed cost, the handler
answers 404, not 403 as the claim states. -/
theorem c1_counterexample :
    (⟨1, 0⟩ : MarketUser).user_access_unit <
      (fun (_ : String) (_ : ℚ) => 1) sampleProduct.product_measurement_unit
        sampleProduct.product_quantity ∧
    (FieldProductView.post (fun _ _ => 1) [] 9 ⟨1, 0⟩ sampleProduct).resp.status = 404 ∧
    (FieldProductView.post (fun _ _ => 1) [] 9 ⟨1, 0⟩ sampleProduct).resp.status ≠ 403 := by
  refine ⟨by norm_num, rfl, by decide⟩

/-- C1 amended: when the target field exists and the balance is strictly
below the computed cost, the handler answers 403, creates no product and
leaves the balance untouched. -/
theorem c1_insufficient_credit (product_access_unit_cost : String → ℚ → ℚ)
    (fields : List (BaseRow Unit)) (field_pk : Nat) (user : MarketUser)
    (validated_data : ProductData) (field : BaseRow Unit)
    (hfield : (CustomBaseManager.get_queryset fields).find?
        (fun f => f.pk = some field_pk) = some field)
    (hcost : user.user_access_unit < product_access_unit_cost
        validated_data.product_measurement_unit validated_data.product_quantity) :
    (FieldProductView.post product_access_unit_cost fields field_pk user
        validated_data).resp.status = 403 ∧
    (FieldProductView.post product_access_unit_cost fields field_pk user
        validated_data).created = [] ∧
    (FieldProductView.post product_access_unit_cost fields field_pk user
        validated_data).user = user := by
  simp [FieldProductView.post, hfield, hcost]

/-- Closed instantiation of `c1_insufficient_credit` at a concrete field
table, user and cost function. -/
theorem c1_insufficient_credit_witness :
    (FieldProductView.post (fun _ _ => 1)
        [⟨some 9, 0, 0, none, none, ()⟩] 9 ⟨1, 0⟩ sampleProduct).resp.status = 403 ∧
    (FieldProductView.post (fun _ _ => 1)
        [⟨some 9, 0, 0, none, none, ()⟩] 9 ⟨1, 0⟩ sampleProduct).created = [] ∧
    (FieldProductView.post (fun _ _ => 1)
        [⟨some 9, 0, 0, none, none, ()⟩] 9 ⟨1, 0⟩ sampleProduct).user = ⟨1, 0⟩ := by
  exact c1_insufficient_credit (fun _ _ => 1)
    [⟨some 9, 0, 0, none, none, ()⟩] 9 ⟨1, 0⟩ sampleProduct
    ⟨some 9, 0, 0, none, none, ()⟩ (by decide) (by norm_num)

/-- C5: when the target field exists and the balance covers the computed
cost, the handler creates exactly the requested product on that field and
the balance decreases by exactly the cost; the user's other column is
unchanged. -/
theorem c5_sufficient_credit_debits_cost (product_access_unit_cost : String → ℚ → ℚ)
    (fields : List (BaseRow Unit)) (field_pk : Nat) (user : MarketUser)
    (validated_data : ProductData) (field : BaseRow Unit)
    (hfield : (CustomBaseManager.get_queryset fields).find?
        (fun f => f.pk = some field_pk) = some field)
    (hcost : product_access_unit_cost validated_data.product_measurement_unit
        validated_data.product_quantity ≤ user.user_access_unit) :
    (FieldProductView.post product_access_unit_cost fields field_pk user
        validated_data).created = [(field_pk, validated_data)] ∧
    (FieldProductView.post product_access_unit_cost fields field_pk user
        validated_data).user.user_access_unit =
      user.user_access_unit - product_access_unit_cost
        validated_data.product_measurement_unit validated_data.product_quantity ∧
    (FieldProductView.post product_access_unit_cost fields field_pk user
        validated_data).user.id = user.id := by
  have hlt : ¬ user.user_access_unit < product_access_unit_cost
      validated_data.product_measurement_unit validated_data.product_quantity :=
    not_lt.mpr hcost
  simp [FieldProductView.post, hfield, hlt]

/-- Closed instantiation of `c5_sufficient_credit_debits_cost` at a concrete
field table, user and cost function. -/
theorem c5_sufficient_credit_debits_cost_witness :
    (FieldProductView.post (fun _ _ => 1)
        [⟨some 9, 0, 0, none, none, ()⟩] 9 ⟨1, 10⟩ sampleProduct).created =
      [(9, sampleProduct)] ∧
    (FieldProductView.post (fun _ _ => 1)
        [⟨some 9, 0, 0, none, none, ()⟩] 9 ⟨1, 10⟩ sampleProduct).user.user_access_unit =
      (10 : ℚ) - 1 ∧
    (FieldProductView.post (fun _ _ => 1)
        [⟨some 9, 0, 0, none, none, ()⟩] 9 ⟨1, 10⟩ sampleProduct).user.id = 1 := by
  exact c5_sufficient_credit_debits_cost (fun _ _ => 1)
    [⟨some 9, 0, 0, none, none, ()⟩] 9 ⟨1, 10⟩ sampleProduct
    ⟨some 9, 0, 0, none, none, ()⟩ (by decide) (by norm_num)

/-- C8 counterexample: the 404 envelope of FieldProductView.post carries the
misspelled key "respose_code" and no key "response_code", so its key set is
not the one the claim states. -/
theorem c8_counterexample :
    "respose_code" ∈ (FieldProductView.post (fun _ _ => 1) [] 9 ⟨1, 0⟩
        sampleProduct).resp.body.map Prod.fst ∧
    "response_code" ∉ (FieldProductView.post (fun _ _ => 1) [] 9 ⟨1, 0⟩
        sampleProduct).resp.body.map Prod.fst := by
  decide

/-- C8 amended: every envelope built by FieldProductView.post has exactly
four keys, and which four depends on the branch: the handler answers with
status 404, 403 or 200 (the success Response is built without a status
argument, so DRF defaults it to 200), the 404 and 403 bodies carry the keys
success, respose_code, respose_data, response_message (code and data
misspelled) and the 200 success body carries success, response_code,
response_data, response_messsage (message misspelled). -/
theorem c8_envelope_keys (product_access_unit_cost : String → ℚ → ℚ)
    (fields : List (BaseRow Unit)) (field_pk : Nat) (user : MarketUser)
    (validated_data : ProductData) :
    ((FieldProductView.post product_access_unit_cost fields field_pk user
        validated_data).resp.status = 404 ∨
     (FieldProductView.post product_access_unit_cost fields field_pk user
        validated_data).resp.status = 403 ∨
     (FieldProductView.post product_access_unit_cost fields field_pk user
        validated_data).resp.status = 200) ∧
    (FieldProductView.post product_access_unit_cost fields field_pk user
        validated_data).resp.body.map Prod.fst =
      (if (FieldProductView.post product_access_unit_cost fields field_pk user
            validated_data).resp.status = 200
       then ["success", "response_code", "response_data", "response_messsage"]
       else ["success", "respose_code", "respose_data", "response_message"]) := by
  unfold FieldProductView.post
  rcases hf : (CustomBaseManager.get_queryset fields).find?
      (fun f => f.pk = some field_pk) with _ | field
  · simp [hf]
  · by_cases hlt : user.user_access_unit < product_access_unit_cost
        validated_data.product_measurement_unit validated_data.product_quantity
    · simp [hf, hlt]
    · simp [hf, hlt]

/-! ## plants/apps/agent/agents/task_scheduler.py

Datetimes are opaque `Int` stamps here; `float` durations are `ℚ`.  The
`task_data` dict of `add_task` becomes a record of the keys the method
reads; `TaskPriority(task_data["priority"])` raises ValueError on an unknown
string, which `TaskPriority.fromString` models with `none`. -/

namespace task_scheduler

inductive TaskStatus where
  | pending | in_progress | completed | cancelled
  deriving DecidableEq, Repr

inductive TaskPriority where
  | low | medium | high | urgent
  deriving DecidableEq, Repr

/-- The enum constructor `TaskPriority(value)`: `none` models the ValueError
raised on a string that is no member's value. -/
def TaskPriority.fromString : String → Option TaskPriority
  | "low" => some .low
  | "medium" => some .medium
  | "high" => some .high
  | "urgent" => some .urgent
  | _ => none

structure Task where
  id : Nat
  title : String
  description : String
  estimated_duration : ℚ
  priority : TaskPriority
  status : TaskStatus
  dependencies : List Nat
  start_date : Option Int
  end_date : Option Int
  assigned_to : Option String
  deriving DecidableEq, Repr

structure TaskData where
  title : String
  description : String
  estimated_duration : ℚ
  priority : String
  dependencies : List Nat := []
  start_date : Option Int := none
  end_date : Option Int := none
  assigned_to : Option String := none
  deriving DecidableEq, Repr

structure TaskScheduler where
  tasks : List Task
  last_id : Nat
  deriving DecidableEq, Repr

/-- TaskScheduler.__init__: empty task list, `last_id = 0`. -/
def TaskScheduler.init : TaskScheduler := ⟨[], 0⟩

/-- TaskScheduler.add_task: `last_id` is incremented first, so it stays
incremented even when the priority constructor then raises; on success the
new task is appended and returned. -/
def TaskScheduler.add_task (s : TaskScheduler) (task_data : TaskData) :
    TaskScheduler × Except PyErr Task :=
  let n := s.last_id + 1
  match TaskPriority.fromString task_data.priority with
  | none =>
      ({ s with last_id := n },
        .error (.valueError (task_data.priority ++ " is not a valid TaskPriority")))
  | some p =>
      let task : Task :=
        ⟨n, task_data.title, task_data.description, task_data.estimated_duration,
          p, .pending, task_data.dependencies, task_data.start_date,
          task_data.end_date, task_data.assigned_to⟩
      (⟨s.tasks ++ [task], n⟩, .ok task)

/-- TaskScheduler.get_task: first task whose id matches, else None. -/
def TaskScheduler.get_task (s : TaskScheduler) (task_id : Nat) : Option Task :=
  s.tasks.find? (fun t => t.id = task_id)

/-- A sequence of add_task calls, collecting each call's outcome. -/
def TaskScheduler.add_all (s : TaskScheduler) :
    List TaskData → TaskScheduler × List (Except PyErr Task)
  | [] => (s, [])
  | d :: ds =>
      let step := s.add_task d
      let rest := step.1.add_all ds
      (rest.1, step.2 :: rest.2)

/-- The task record a successful `add_task` builds when the counter is at
`n` (so the task's id is `n + 1`). -/
def mkTask (n : Nat) (d : TaskData) : Task :=
  ⟨n + 1, d.title, d.description, d.estimated_duration,
    (TaskPriority.fromString d.priority).getD .low, .pending, d.dependencies,
    d.start_date, d.end_date, d.assigned_to⟩

/-- The tasks a run of successful `add_task` calls appends, starting with the
counter at `n`. -/
def mkTasks (n : Nat) : List TaskData → List Task
  | [] => []
  | d :: ds => mkTask n d :: mkTasks (n + 1) ds

theorem mkTasks_map_id (ds : List TaskData) (n : Nat) :
    (mkTasks n ds).map (fun t => t.id) = List.range' (n + 1) ds.length := by
  induction ds generalizing n with
  | nil => simp [mkTasks]
  | cons d ds ih => simp [mkTasks, mkTask, List.range', ih]

theorem add_all_eq (ds : List TaskData) (s : TaskScheduler)
    (hvalid : ∀ d ∈ ds, (TaskPriority.fromString d.priority).isSome) :
    s.add_all ds =
      (⟨s.tasks ++ mkTasks s.last_id ds, s.last_id + ds.length⟩,
        (mkTasks s.last_id ds).map Except.ok) := by
  induction ds generalizing s with
  | nil => simp [TaskScheduler.add_all, mkTasks]
  | cons d ds ih =>
      obtain ⟨p, hp⟩ := Option.isSome_iff_exists.mp (hvalid d (by simp))
      have hstep : s.add_task d =
          (⟨s.tasks ++ [mkTask s.last_id d], s.last_id + 1⟩, .ok (mkTask s.last_id d)) := by
        simp [TaskScheduler.add_task, mkTask, hp]
      have ihs := ih ⟨s.tasks ++ [mkTask s.last_id d], s.last_id + 1⟩
        (fun x hx => hvalid x (by simp [hx]))
      simp only [TaskScheduler.add_all, hstep, ihs, mkTasks, List.map_cons,
        Prod.mk.injEq, TaskScheduler.mk.injEq]
      refine ⟨⟨by simp, ?_⟩, trivial⟩
      simp only [List.length_cons]
      omega

/-- Looking up by id in a task list whose ids are consecutive starting at
`m + 1` finds exactly the positional element. -/
theorem find_id_range (ts : List Task) (m : Nat)
    (hids : ts.map (fun t => t.id) = List.range' (m + 1) ts.length) :
    ∀ k, k < ts.length → ts.find? (fun t => t.id = m + 1 + k) = ts.get? k := by
  induction ts generalizing m with
  | nil => intro k hk; simp at hk
  | cons t ts ih =>
      intro k hk
      simp only [List.length_cons, List.map_cons, List.range'] at hids
      obtain ⟨hid, hrest⟩ := List.cons.inj hids
      cases k with
      | zero =>
          rw [List.find?_cons_of_pos _ (by simp [hid])]
          rfl
      | succ k =>
          have hne : ¬ (t.id = m + 1 + (k + 1)) := by rw [hid]; omega
          rw [List.find?_cons_of_neg _ (by simpa using hne)]
          have hrest' : ts.map (fun t => t.id) = List.range' (m + 1 + 1) ts.length := by
            simpa using hrest
          have := ih (m + 1) hrest' k (by simpa using hk)
          simp only [show m + 1 + (k + 1) = m + 1 + 1 + k from by omega]
          simpa using this

/-- C9: for every run of successful add_task calls on a fresh TaskScheduler
(task_scheduler.py), the assigned ids are 1, 2, 3, … in insertion order and
pairwise distinct; get_task on the id of the task returned by the k-th call
returns exactly that task, and get_task returns None for every id outside
the assigned ones. -/
theorem c9_add_task_ids (ds : List TaskData)
    (hvalid : ∀ d ∈ ds, (TaskPriority.fromString d.priority).isSome) :
    ((TaskScheduler.init.add_all ds).1.tasks.map (fun t => t.id) =
        List.range' 1 ds.length) ∧
    ((TaskScheduler.init.add_all ds).1.tasks.map (fun t => t.id)).Nodup ∧
    (∀ k, k < ds.length → ∃ t,
      (TaskScheduler.init.add_all ds).2.get? k = some (.ok t) ∧
      (TaskScheduler.init.add_all ds).1.get_task t.id = some t) ∧
    (∀ j, j ∉ (TaskScheduler.init.add_all ds).1.tasks.map (fun t => t.id) →
      (TaskScheduler.init.add_all ds).1.get_task j = none) := by
  have heq := add_all_eq ds TaskScheduler.init hvalid
  have htasks : (TaskScheduler.init.add_all ds).1.tasks = mkTasks 0 ds := by
    rw [heq]; simp [TaskScheduler.init]
  have hres : (TaskScheduler.init.add_all ds).2 = (mkTasks 0 ds).map Except.ok := by
    rw [heq]; simp [TaskScheduler.init]
  have hlen : (mkTasks 0 ds).length = ds.length := by
    have hl := congrArg List.length (mkTasks_map_id ds 0)
    simpa using hl
  have hids : (mkTasks 0 ds).map (fun t => t.id) = List.range' 1 (mkTasks 0 ds).length := by
    rw [hlen]; simpa using mkTasks_map_id ds 0
  refine ⟨?_, ?_, ?_, ?_⟩
  · rw [htasks]; simpa using mkTasks_map_id ds 0
  · rw [htasks, hids]; exact List.nodup_range' _ _
  · intro k hk
    have hk' : k < (mkTasks 0 ds).length := by omega
    refine ⟨(mkTasks 0 ds).get ⟨k, hk'⟩, ?_, ?_⟩
    · rw [hres, List.get?_map, List.get?_eq_get hk']
      rfl
    · have hgid : ((mkTasks 0 ds).get ⟨k, hk'⟩).id = 0 + 1 + k := by
        have hq := congrArg (fun l => l.get? k) (mkTasks_map_id ds 0)
        simp only at hq
        rw [List.get?_map, List.get?_eq_get hk',
          List.get?_range' _ _ (show k < ds.length from hk)] at hq
        simp only [Option.map_some'] at hq
        have := Option.some.inj hq
        omega
      unfold TaskScheduler.get_task
      rw [htasks, hgid,
        find_id_range (mkTasks 0 ds) 0 (by simpa using hids) k hk',
        List.get?_eq_get hk']
  · intro j hj
    unfold TaskScheduler.get_task
    rw [List.find?_eq_none]
    intro t ht
    rw [htasks] at ht
    rw [htasks] at hj
    simp only [List.mem_map, not_exists, not_and] at hj
    simpa using hj t ht

/-- Closed instantiation of `c9_add_task_ids` at two concrete add_task
calls. -/
theorem c9_add_task_ids_witness :
    ((TaskScheduler.init.add_all
        [⟨"plow", "plow the field", 2, "high", [], none, none, none⟩,
         ⟨"sow", "sow maize", 3, "low", [1], none, none, none⟩]).1.tasks.map
          (fun t => t.id) = List.range' 1 2) ∧
    ((TaskScheduler.init.add_all
        [⟨"plow", "plow the field", 2, "high", [], none, none, none⟩,
         ⟨"sow", "sow maize", 3, "low", [1], none, none, none⟩]).1.tasks.map
          (fun t => t.id)).Nodup ∧
    (∀ k, k < 2 → ∃ t,
      (TaskScheduler.init.add_all
        [⟨"plow", "plow the field", 2, "high", [], none, none, none⟩,
         ⟨"sow", "sow maize", 3, "low", [1], none, none, none⟩]).2.get? k = some (.ok t) ∧
      (TaskScheduler.init.add_all
        [⟨"plow", "plow the field", 2, "high", [], none, none, none⟩,
         ⟨"sow", "sow maize", 3, "low", [1], none, none, none⟩]).1.get_task t.id = some t) ∧
    (∀ j, j ∉ (TaskScheduler.init.add_all
        [⟨"plow", "plow the field", 2, "high", [], none, none, none⟩,
         ⟨"sow", "sow maize", 3, "low", [1], none, none, none⟩]).1.tasks.map
          (fun t => t.id) →
      (TaskScheduler.init.add_all
        [⟨"plow", "plow the field", 2, "high", [], none, none, none⟩,
         ⟨"sow", "sow maize", 3, "low", [1], none, none, none⟩]).1.get_task j = none) := by
  exact c9_add_task_ids
    [⟨"plow", "plow the field", 2, "high", [], none, none, none⟩,
     ⟨"sow", "sow maize", 3, "low", [1], none, none, none⟩]
    (by intro d hd; fin_cases hd <;> decide)

end task_scheduler

/-! ## plants/apps/agent/agents/planning_agent.py

The file imports `from datetime import datetime, timedelta`, so inside
`TaskScheduler.schedule_tasks` the expression `datetime.timedelta(...)` is an
attribute lookup of `timedelta` on the class `datetime`, which raises
AttributeError.  Datetimes are `ℚ` (hours); dicts are association lists. -/

namespace planning_agent

inductive TaskPriority where
  | low | medium | high | urgent
  deriving DecidableEq, Repr

inductive TaskStatus where
  | pending | in_progress | completed | cancelled
  deriving DecidableEq, Repr

structure Equipment where
  name : String
  type : String
  capacity : ℚ
  status : String
  last_maintenance : Int
  quantity : Nat
  deriving DecidableEq, Repr

/-- The parts of an OpenWeather-style `weather_data` dict that
`Task.is_weather_suitable` reads: `weather_data.get("wind", ...).get("speed", 0)`,
`.get("rain", ...).get("1h", 0)` and `.get("main", ...).get("temp", 20)`;
a `none` component models a missing key, where the `.get` default applies. -/
structure Weather where
  wind_speed : Option ℚ
  rain_1h : Option ℚ
  main_temp : Option ℚ

structure Task where
  title : String
  description : String
  priority : TaskPriority
  field_id : Int
  id : Option Nat
  status : TaskStatus
  start_date : Option ℚ
  end_date : Option ℚ
  dependencies : List Nat
  weather_constraints : List (String × ℚ)
  equipment_required : List Equipment
  estimated_duration : ℚ
  deriving DecidableEq, Repr

/-- Task.is_weather_suitable (planning_agent.py). -/
def Task.is_weather_suitable (t : Task) (weather_data : Weather) : Bool :=
  let wind_speed := weather_data.wind_speed.getD 0
  let precipitation := weather_data.rain_1h.getD 0
  let temperature := weather_data.main_temp.getD 20
  decide (wind_speed ≤ ((t.weather_constraints.lookup "max_wind_speed").getD 30)) &&
  decide (precipitation ≤ ((t.weather_constraints.lookup "max_precipitation").getD 5)) &&
  (decide (((t.weather_constraints.lookup "min_temperature").getD 5) ≤ temperature) &&
   decide (temperature ≤ ((t.weather_constraints.lookup "max_temperature").getD 35)))

structure TaskScheduler where
  tasks : List Task
  deriving DecidableEq, Repr

/-- TaskScheduler.get_task: first task whose id equals the argument
(`None == task_id` is False in Python, so unset ids never match). -/
def TaskScheduler.get_task (s : TaskScheduler) (task_id : Nat) : Option Task :=
  s.tasks.find? (fun t => t.id = some task_id)

/-- The sort key of schedule_tasks as a Boolean total preorder:
`(len(x.dependencies), {"low": 0, "medium": 1, "high": 2, "urgent": 3}[x.priority.value])`,
compared lexicographically. -/
def priorityRank : TaskPriority → Nat
  | .low => 0
  | .medium => 1
  | .high => 2
  | .urgent => 3

def taskKeyLe (a b : Task) : Bool :=
  decide (a.dependencies.length < b.dependencies.length) ||
  (decide (a.dependencies.length = b.dependencies.length) &&
    decide (priorityRank a.priority ≤ priorityRank b.priority))

/-- The generator `all(self.get_task(dep_id).status == TaskStatus.COMPLETED
for dep_id in task.dependencies)`: short-circuits at the first dependency
whose status is not COMPLETED, and raises AttributeError (`None.status`)
when a dependency id is unknown. -/
def TaskScheduler.dependencies_met (s : TaskScheduler) :
    List Nat → Except PyErr Bool
  | [] => .ok true
  | dep_id :: rest =>
      match s.get_task dep_id with
      | none => .error (.attributeError "NoneType object has no attribute status")
      | some t =>
          if t.status = TaskStatus.completed then s.dependencies_met rest
          else .ok false

/-- The AttributeError raised by evaluating `datetime.timedelta(...)` under
`from datetime import datetime, timedelta`. -/
def datetimeTimedeltaErr : PyErr :=
  .attributeError "type object datetime.datetime has no attribute timedelta"

/-- The scheduling loop of schedule_tasks.  In the while-loop body both
branches evaluate `datetime.timedelta(...)` as their first effect — the
suitable-weather branch in `task.end_date = current_date +
datetime.timedelta(hours=task.estimated_duration)` and the other branch in
`current_date += datetime.timedelta(hours=1)` — so the body raises
AttributeError either way and the while loop never completes an iteration. -/
def TaskScheduler.schedule_go (s : TaskScheduler) (ws : Int → Int → Weather) :
    List Task → ℚ → List Task → Except PyErr (List Task)
  | [], _, scheduled_tasks => .ok scheduled_tasks
  | task :: rest, current_date, scheduled_tasks =>
      match s.dependencies_met task.dependencies with
      | .error e => .error e
      | .ok false => s.schedule_go ws rest current_date scheduled_tasks
      | .ok true =>
          let weather := ws task.field_id task.field_id
          if task.is_weather_suitable weather then .error datetimeTimedeltaErr
          else .error datetimeTimedeltaErr

/-- TaskScheduler.schedule_tasks (planning_agent.py): filter the pending
tasks, sort them by `(dependency count, priority rank)`, then run the
scheduling loop from `datetime.now()` with an empty result list. -/
def TaskScheduler.schedule_tasks (s : TaskScheduler)
    (weather_service : Int → Int → Weather) (now : ℚ) : Except PyErr (List Task) :=
  let pending_tasks := s.tasks.filter (fun t => t.status = TaskStatus.pending)
  s.schedule_go weather_service (pending_tasks.mergeSort taskKeyLe) now []

/-- A pending task with no dependencies: the smallest input on which
schedule_tasks reaches the date-assignment statement. -/
def c2Task : Task :=
  ⟨"plow", "plow the field", .high, 1, some 1, .pending, none, none, [], [], [], 2⟩

/-- C2 code bug: on any scheduler holding one pending task with no
dependencies, schedule_tasks raises AttributeError (the source spells
`datetime.timedelta` although `datetime` is the class imported by
`from datetime import datetime`), for every weather service and start time,
instead of assigning the task its dates. -/
theorem c2_schedule_tasks_raises (weather_service : Int → Int → Weather) (now : ℚ) :
    TaskScheduler.schedule_tasks ⟨[c2Task]⟩ weather_service now =
      .error datetimeTimedeltaErr := by
  show TaskScheduler.schedule_go _ weather_service
      (([c2Task].filter (fun t => t.status = TaskStatus.pending)).mergeSort taskKeyLe)
      now [] = .error datetimeTimedeltaErr
  have hf : ([c2Task].filter (fun t => t.status = TaskStatus.pending)) = [c2Task] := rfl
  rw [hf, List.mergeSort_singleton]
  show (if c2Task.is_weather_suitable (weather_service 1 1)
      then Except.error datetimeTimedeltaErr
      else Except.error datetimeTimedeltaErr) = .error datetimeTimedeltaErr
  exact ite_self _

end planning_agent

/-! ## Python string primitives

Transliterations of the Python string methods and `re.sub` calls used by
`PlanningAgent.parse_json_response`, over character lists.  Recursions that
are not structural carry a fuel argument initialised above the input
length. -/

/-- The whitespace set of `str.split` / `str.strip` / `\s` (ASCII). -/
def isPyWs (c : Char) : Bool :=
  c = ' ' || c = '\t' || c = '\n' || c = '\r' || c = '\x0b' || c = '\x0c'

def findCharIdx : List Char → Char → Nat → Option Nat
  | [], _, _ => none
  | x :: xs, c, i => if x = c then some i else findCharIdx xs c (i + 1)

/-- Python `s.find(c)` for a one-character needle: first index or -1. -/
def pyFind (s : String) (c : Char) : Int :=
  match findCharIdx s.data c 0 with
  | some i => (i : Int)
  | none => -1

/-- Python `s.rfind(c)` for a one-character needle: last index or -1. -/
def pyRfind (s : String) (c : Char) : Int :=
  match findCharIdx s.data.reverse c 0 with
  | some i => (s.data.length - 1 - i : Int)
  | none => -1

/-- Python `s[a:b]` for non-negative bounds. -/
def pySlice (s : String) (a b : Nat) : String :=
  ⟨(s.data.drop a).take (b - a)⟩

/-- Python `s.replace(old, new)` for a one-character pattern. -/
def pyReplaceChar (s : String) (old new : Char) : String :=
  ⟨s.data.map (fun c => if c = old then new else c)⟩

def splitWsAux : List Char → List Char → List String
  | [], acc => if acc.isEmpty then [] else [⟨acc.reverse⟩]
  | c :: cs, acc =>
      if isPyWs c then
        if acc.isEmpty then splitWsAux cs []
        else ⟨acc.reverse⟩ :: splitWsAux cs []
      else splitWsAux cs (c :: acc)

/-- Python `s.split()`: maximal runs of non-whitespace. -/
def pySplitWs (s : String) : List String :=
  splitWsAux s.data []

/-- Python `sep.join(parts)`. -/
def joinSep (sep : String) : List String → String
  | [] => ""
  | [x] => x
  | x :: xs => x ++ sep ++ joinSep sep xs

/-- Python `s.strip()`. -/
def pyStrip (s : String) : String :=
  ⟨((s.data.dropWhile isPyWs).reverse.dropWhile isPyWs).reverse⟩

def splitOnCharAux : List Char → Char → List Char → List String
  | [], _, acc => [⟨acc.reverse⟩]
  | c :: cs, sep, acc =>
      if c = sep then ⟨acc.reverse⟩ :: splitOnCharAux cs sep []
      else splitOnCharAux cs sep (c :: acc)

/-- Python `s.split(sep)` for a one-character separator (keeps empty parts). -/
def pySplitOnChar (s : String) (sep : Char) : List String :=
  splitOnCharAux s.data sep []

/-- Python `s.startswith("//")`. -/
def startsSlashSlash (s : String) : Bool :=
  match s.data with
  | '/' :: '/' :: _ => true
  | _ => false

def rtcAux : Nat → List Char → List Char
  | 0, cs => cs
  | _ + 1, [] => []
  | f + 1, c :: cs =>
      if c = ',' then
        let sp := cs.takeWhile isPyWs
        match cs.drop sp.length with
        | b :: bs =>
            if b = '}' ∨ b = ']' then sp ++ b :: rtcAux f bs
            else ',' :: rtcAux f cs
        | [] => ',' :: rtcAux f cs
      else c :: rtcAux f cs

/-- Python `re.sub(r",(\s*[}\]])", r"\1", s)`: drop a comma standing before
optional whitespace and a closing brace or bracket; scanning resumes past the
replaced region, as `re.sub` does. -/
def removeTrailingCommas (s : String) : String :=
  ⟨rtcAux (s.data.length + 1) s.data⟩

def iocAux : Nat → List Char → List Char
  | 0, cs => cs
  | _ + 1, [] => []
  | f + 1, c :: cs =>
      if c = '}' then
        let sp := cs.takeWhile isPyWs
        match cs.drop sp.length with
        | b :: bs =>
            if b = '{' then '}' :: ',' :: '{' :: iocAux f bs
            else '}' :: iocAux f cs
        | [] => '}' :: iocAux f cs
      else c :: iocAux f cs

/-- Python `re.sub(r"}\s*{", "},{", s)`: a comma is inserted between a
closing and an opening brace, the whitespace of the match being consumed. -/
def insertObjCommas (s : String) : String :=
  ⟨iocAux (s.data.length + 1) s.data⟩

/-! ## A model of Python `json.loads`

Strict-mode JSON values and a fuel-indexed recursive-descent parser.
Objects are built as Python dicts are: a repeated key overwrites the value
in place.  Number tokens are validated against the JSON grammar and kept as
their lexeme. -/

inductive PJson where
  | jnull
  | jbool (b : Bool)
  | jnum (lexeme : String)
  | jstr (s : String)
  | jarr (elems : List PJson)
  | jobj (members : List (String × PJson))

/-- Whitespace skipped between JSON tokens (strict mode). -/
def skipWsJ (cs : List Char) : List Char :=
  cs.dropWhile (fun c => c = ' ' || c = '\t' || c = '\n' || c = '\r')

def hexVal (c : Char) : Option Nat :=
  if '0' ≤ c ∧ c ≤ '9' then some (c.toNat - 48)
  else if 'a' ≤ c ∧ c ≤ 'f' then some (c.toNat - 87)
  else if 'A' ≤ c ∧ c ≤ 'F' then some (c.toNat - 55)
  else none

/-- The body of a JSON string after the opening quote; strict mode rejects
unescaped control characters. -/
def parseStringBody : Nat → List Char → List Char → Option (String × List Char)
  | 0, _, _ => none
  | _ + 1, [], _ => none
  | f + 1, c :: cs, acc =>
      if c = '"' then some (⟨acc.reverse⟩, cs)
      else if c = '\\' then
        match cs with
        | [] => none
        | e :: cs2 =>
            if e = '"' then parseStringBody f cs2 ('"' :: acc)
            else if e = '\\' then parseStringBody f cs2 ('\\' :: acc)
            else if e = '/' then parseStringBody f cs2 ('/' :: acc)
            else if e = 'b' then parseStringBody f cs2 ('\x08' :: acc)
            else if e = 'f' then parseStringBody f cs2 ('\x0c' :: acc)
            else if e = 'n' then parseStringBody f cs2 ('\n' :: acc)
            else if e = 'r' then parseStringBody f cs2 ('\r' :: acc)
            else if e = 't' then parseStringBody f cs2 ('\t' :: acc)
            else if e = 'u' then
              match cs2 with
              | h1 :: h2 :: h3 :: h4 :: cs3 =>
                  match hexVal h1, hexVal h2, hexVal h3, hexVal h4 with
                  | some a, some b, some c', some d =>
                      parseStringBody f cs3
                        (Char.ofNat (a * 4096 + b * 256 + c' * 16 + d) :: acc)
                  | _, _, _, _ => none
              | _ => none
            else none
      else if c.toNat < 32 then none
      else parseStringBody f cs (c :: acc)

/-- One or more decimal digits. -/
def digits1 (cs : List Char) : Option (List Char × List Char) :=
  let d := cs.takeWhile Char.isDigit
  if d.isEmpty then none else some (d, cs.drop d.length)

/-- A JSON number token: `-? (0 | [1-9][0-9]*) (\.[0-9]+)? ([eE][-+]?[0-9]+)?`;
a malformed tail is left unconsumed, to fail at the enclosing level as the
Python scanner does. -/
def parseNumber (cs : List Char) : Option (String × List Char) :=
  let sgn : List Char × List Char :=
    match cs with
    | '-' :: r => (['-'], r)
    | _ => ([], cs)
  match digits1 sgn.2 with
  | none => none
  | some (ip, cs2) =>
      if ip.length > 1 ∧ ip.head? = some '0' then none
      else
        let frac : List Char × List Char :=
          match cs2 with
          | '.' :: r =>
              match digits1 r with
              | some (d, r2) => ('.' :: d, r2)
              | none => ([], cs2)
          | _ => ([], cs2)
        let expo : List Char × List Char :=
          match frac.2 with
          | e :: r =>
              if e = 'e' ∨ e = 'E' then
                match r with
                | s :: r2 =>
                    if s = '+' ∨ s = '-' then
                      match digits1 r2 with
                      | some (d, r3) => (e :: s :: d, r3)
                      | none => ([], frac.2)
                    else
                      match digits1 r with
                      | some (d, r3) => ([e] ++ d, r3)
                      | none => ([], frac.2)
                | [] => ([], frac.2)
              else ([], frac.2)
          | [] => ([], frac.2)
        some (⟨sgn.1 ++ ip ++ frac.1 ++ expo.1⟩, expo.2)

/-- Inserting into a Python dict: an existing key is updated in place,
otherwise the pair is appended. -/
def dictInsert (acc : List (String × PJson)) (k : String) (v : PJson) :
    List (String × PJson) :=
  if acc.any (fun p => p.1 = k) then
    acc.map (fun p => if p.1 = k then (k, v) else p)
  else acc ++ [(k, v)]

mutual

def parseJ : Nat → List Char → Option (PJson × List Char)
  | 0, _ => none
  | f + 1, cs =>
      match skipWsJ cs with
      | [] => none
      | c :: rest =>
          if c = '"' then
            match parseStringBody (rest.length + 1) rest [] with
            | some (s, r) => some (.jstr s, r)
            | none => none
          else if c = '{' then
            match skipWsJ rest with
            | '}' :: r2 => some (.jobj [], r2)
            | r1 => parseObjRest f r1 []
          else if c = '[' then
            match skipWsJ rest with
            | ']' :: r2 => some (.jarr [], r2)
            | r1 => parseArrRest f r1 []
          else if c = 't' then
            match rest with
            | 'r' :: 'u' :: 'e' :: r => some (.jbool true, r)
            | _ => none
          else if c = 'f' then
            match rest with
            | 'a' :: 'l' :: 's' :: 'e' :: r => some (.jbool false, r)
            | _ => none
          else if c = 'n' then
            match rest with
            | 'u' :: 'l' :: 'l' :: r => some (.jnull, r)
            | _ => none
          else
            match parseNumber (c :: rest) with
            | some (t, r) => some (.jnum t, r)
            | none => none

def parseObjRest : Nat → List Char → List (String × PJson) →
    Option (PJson × List Char)
  | 0, _, _ => none
  | f + 1, cs, acc =>
      match skipWsJ cs with
      | '"' :: r =>
          match parseStringBody (r.length + 1) r [] with
          | none => none
          | some (k, r2) =>
              match skipWsJ r2 with
              | ':' :: r3 =>
                  match parseJ f r3 with
                  | none => none
                  | some (v, r4) =>
                      match skipWsJ r4 with
                      | ',' :: r5 => parseObjRest f r5 (dictInsert acc k v)
                      | '}' :: r5 => some (.jobj (dictInsert acc k v), r5)
                      | _ => none
              | _ => none
      | _ => none

def parseArrRest : Nat → List Char → List PJson → Option (PJson × List Char)
  | 0, _, _ => none
  | f + 1, cs, acc =>
      match parseJ f cs with
      | none => none
      | some (v, r) =>
          match skipWsJ r with
          | ',' :: r2 => parseArrRest f r2 (acc ++ [v])
          | ']' :: r2 => some (.jarr (acc ++ [v]), r2)
          | _ => none

end

/-- Model of `json.loads`: parse one value, allow trailing whitespace only;
`none` stands for `json.JSONDecodeError`. -/
def json_loads (s : String) : Option PJson :=
  match parseJ (s.data.length + 2) s.data with
  | some (v, rest) => if skipWsJ rest = [] then some v else none
  | none => none

/-! ## PlanningAgent.parse_json_response (planning_agent.py)

The outer `try` can only see `json.JSONDecodeError` (already handled by the
inner `try`s), so the transliteration is a total function; returning the
default `\x7b\x7d` models both `return \x7b\x7d` sites. -/

/-- PlanningAgent.parse_json_response, transliterated statement by
statement. -/
def parse_json_response (response : String) : PJson :=
  let start := pyFind response '{'
  let endp := pyRfind response '}' + 1
  if start = -1 ∨ endp = 0 then .jobj []
  else
    let json_str := pySlice response start.toNat endp.toNat
    let json_str := pyReplaceChar json_str '\n' ' '
    let json_str := pyReplaceChar json_str '\r' ' '
    let json_str := joinSep " " (pySplitWs json_str)
    match json_loads json_str with
    | some v => v
    | none =>
        let json_lines := pySplitOnChar json_str '\n'
        let json_lines := json_lines.filter
          (fun line => !(startsSlashSlash (pyStrip line)))
        let json_str := joinSep "\n" json_lines
        let json_str := removeTrailingCommas json_str
        let json_str := insertObjCommas json_str
        match json_loads json_str with
        | some v => v
        | none => .jobj []

/-- The substring of the response between the first opening and the last
closing brace, both included. -/
def extractBraces (response : String) : String :=
  pySlice response (pyFind response '{').toNat ((pyRfind response '}') + 1).toNat

/-- The whitespace normalisation parse_json_response applies before its
first parse attempt: newlines and carriage returns become spaces and runs of
whitespace collapse to single spaces. -/
def normalizeWs (s : String) : String :=
  joinSep " " (pySplitWs (pyReplaceChar (pyReplaceChar s '\n' ' ') '\r' ' '))

/-- The looser second cleanup pass: drop comment lines, remove trailing
commas, insert commas between adjacent objects. -/
def secondPass (s : String) : String :=
  insertObjCommas (removeTrailingCommas (joinSep "\n"
    ((pySplitOnChar s '\n').filter (fun line => !(startsSlashSlash (pyStrip line))))))

/-- Reads the string stored under a key of a JSON object. -/
def objStrField (j : PJson) (k : String) : Option String :=
  match j with
  | .jobj kvs =>
      match kvs.lookup k with
      | some (.jstr s) => some s
      | _ => none
  | _ => none

/-- Reads the string stored under a key of the object a string parses to. -/
def loadsStrField (s k : String) : Option String :=
  match json_loads s with
  | some v => objStrField v k
  | none => none

/-- The response on which the first parse attempt succeeds but returns a
different value than the brace-delimited substring parses to: the double
space inside the string literal is collapsed by the whitespace
normalisation. -/
def c7Resp : String := "\x7b\"a\":\"x  y\"\x7d"

/-- C7 counterexample: the brace-delimited substring of `c7Resp` parses as
JSON with "x  y" under key "a", yet parse_json_response returns an object
holding "x y" there — the parse of the substring is not what is returned. -/
theorem c7_counterexample :
    loadsStrField (extractBraces c7Resp) "a" = some "x  y" ∧
    objStrField (parse_json_response c7Resp) "a" = some "x y" ∧
    ("x y" : String) ≠ "x  y" :=
  ⟨rfl, rfl, by decide⟩

/-- C7 amended: parse_json_response is a total function (every exception is
caught); when no brace pair is found it returns the empty object, otherwise
it returns the parse of the whitespace-normalised brace-delimited substring
when that parses, else the parse of the second, looser cleanup pass of that
string when that parses, else the default empty object. -/
theorem c7_parse_json_response_structure (response : String) :
    parse_json_response response =
      (if pyFind response '{' = -1 ∨ pyRfind response '}' + 1 = 0 then .jobj []
       else
        match json_loads (normalizeWs (extractBraces response)) with
        | some v => v
        | none =>
            match json_loads (secondPass (normalizeWs (extractBraces response))) with
            | some v => v
            | none => .jobj []) :=
  rfl

/-! ## plants/apps/plants_species/views.py — PlantsSpecies.get

`PERENUAL_API_KEYS` is read from the settings, which do not define it in the
sources, so the key list is a parameter.  The stored `RequestOffset` row is
`Option Nat` (`none` when the table is empty and `.first()` is None); the
function returns the response outcome together with the offset left in the
database.  `requests.get` is a parameter returning the downstream response,
whose body stands for `response.json()`. -/

namespace plants_species

structure ExtResp where
  headers : List (String × String)
  body : PJson

/-- Python `int(s)` on a header value. -/
def pyInt (s : String) : Except PyErr Int :=
  let t := (pyStrip s).data
  match t with
  | '-' :: ds =>
      if ds ≠ [] ∧ ds.all Char.isDigit then
        .ok (-(ds.foldl (fun a c => a * 10 + (c.toNat - 48)) 0 : Nat))
      else .error (.valueError ("invalid literal for int: " ++ s))
  | ds =>
      if ds ≠ [] ∧ ds.all Char.isDigit then
        .ok ((ds.foldl (fun a c => a * 10 + (c.toNat - 48)) 0 : Nat) : Int)
      else .error (.valueError ("invalid literal for int: " ++ s))

def PlantsSpecies.base_url : String := "https://perenual.com/api/"

/-- The tail of PlantsSpecies.get after `complet_url` is built: append the
query parameters, call the downstream API, bump the stored offset when the
rate-limit header reaches 1, and answer with the body (or the "limit offset"
notice when the body carries the rate-limit key). -/
def PlantsSpecies.get_rest (request_offset : Nat) (dbOffset : Option Nat)
    (complet_url : String) (query_params : List (String × String))
    (external : String → ExtResp) : Except PyErr PJson × Option Nat :=
  let query_str := query_params.foldl
    (fun acc p => acc ++ "&" ++ p.1 ++ "=" ++ p.2) ""
  let complet_url := if query_params.length > 0 then complet_url ++ query_str
    else complet_url
  let response := external complet_url
  let afterHeader : Except PyErr (Option Nat) :=
    match response.headers.lookup "X-RateLimit-Remaining" with
    | some hv =>
        match pyInt hv with
        | .error e => .error e
        | .ok n => .ok (if n = 1 then some (request_offset + 1) else dbOffset)
    | none => .ok dbOffset
  match afterHeader with
  | .error e => .error e |> (·, dbOffset)
  | .ok dbOffset' =>
      match response.body with
      | .jobj kvs =>
          if (kvs.lookup "X-RateLimit-Remaining").isSome then
            (.ok (.jobj [("message", .jstr "limit offset")]), dbOffset')
          else (.ok response.body, dbOffset')
      | _ => (.error (.attributeError "response body has no attribute get"), dbOffset')

/-- PlantsSpecies.get (plants_species/views.py).  The IndexError branch
stores offset 0 but rebuilds the URL with the unchanged local
`request_offset`, so the same out-of-range index is evaluated again. -/
def PlantsSpecies.get (PERENUAL_API_KEYS : List String) (dbOffset : Option Nat)
    (plant_id : Option Int) (query_params : List (String × String))
    (external : String → ExtResp) : Except PyErr PJson × Option Nat :=
  match dbOffset with
  | none => (.error (.attributeError "NoneType object has no attribute offset"), none)
  | some request_offset =>
      let end_url := match plant_id with
        | some pid => "species-list" ++ "/" ++ toString pid
        | none => "species-list"
      match PERENUAL_API_KEYS.get? request_offset with
      | some key =>
          PlantsSpecies.get_rest request_offset (some request_offset)
            (PlantsSpecies.base_url ++ end_url ++ "?key=" ++ key)
            query_params external
      | none =>
          match PERENUAL_API_KEYS.get? request_offset with
          | some key =>
              PlantsSpecies.get_rest request_offset (some 0)
                (PlantsSpecies.base_url ++ end_url ++ "?key=" ++ key)
                query_params external
          | none => (.error (.indexError "list index out of range"), some 0)

/-- C10: when the stored offset is at least the number of keys, the handler
persists offset 0 but raises IndexError again for the current request: the
first lookup raises, the recovery branch saves 0 and then indexes the key
list with the same out-of-range offset. -/
theorem c10_offset_reset_never_applies (PERENUAL_API_KEYS : List String)
    (off : Nat) (plant_id : Option Int) (query_params : List (String × String))
    (external : String → ExtResp)
    (h : PERENUAL_API_KEYS.length ≤ off) :
    PlantsSpecies.get PERENUAL_API_KEYS (some off) plant_id query_params external =
      (.error (.indexError "list index out of range"), some 0) := by
  have hg : PERENUAL_API_KEYS[off]? = none := by
    simpa using List.get?_eq_none.mpr h
  unfold PlantsSpecies.get
  cases plant_id <;> simp [hg]

/-- Closed instantiation of `c10_offset_reset_never_applies`: one key stored,
offset already advanced past it. -/
theorem c10_offset_reset_never_applies_witness :
    PlantsSpecies.get ["key0"] (some 1) none []
        (fun _ => ⟨[], .jobj []⟩) =
      (.error (.indexError "list index out of range"), some 0) := by
  exact c10_offset_reset_never_applies ["key0"] 1 none []
    (fun _ => ⟨[], .jobj []⟩) (by decide)

end plants_species

end Plants
